import Mathlib

/-!
Verification of the Dr-lingo medical translation chat client and its
processing/retrieval spec.  The TypeScript client code is embedded as
executable Lean definitions; JavaScript truthiness on strings and numbers
is modelled explicitly (`jsOr`, option-valued fields).  The backend
worker/retrieval components that are described by the spec but whose
Python sources are not in the repository snapshot are modelled from the
spec and marked as such in their doc comments.
-/

/-- JavaScript `a || b` on strings: the empty string is the only falsy string. -/
def jsOr (a b : String) : String := if a = "" then b else a

/-- JavaScript `String.prototype.trim`: strips leading and trailing
whitespace (modelled over the character list so it evaluates by `decide`). -/
def jsTrim (s : String) : String :=
  String.mk (((s.data.dropWhile Char.isWhitespace).reverse.dropWhile
    Char.isWhitespace).reverse)

/-- JavaScript truthiness of an optional string field
(`undefined` and the empty string are falsy). -/
def jsTruthyOptStr (o : Option String) : Bool :=
  match o with
  | none => false
  | some s => s != ""

/-- A chat message as delivered to the client
(src/client/src/types/chat.ts, `ChatMessage`; fields the bubble reads). -/
structure ChatMessage where
  original_text : String
  original_language : String
  translated_text : String
  translated_language : String
  tts_audio_url : Option String
deriving Repr, DecidableEq

/-- Predicate `isTranslating` of the current `MessageBubble`: the message is in a
translating placeholder state (AddPatientContext.tsx lines 997-1000). -/
def isTranslating (m : ChatMessage) : Bool :=
  m.translated_text == "[Translating...]" ||
  m.translated_text == "[Processing...]" ||
  m.original_text == "[Processing audio...]"

/-- Value `displayText` of `MessageBubble`: original on toggle, translation by default. -/
def displayText (m : ChatMessage) (showOriginal : Bool) : String :=
  if showOriginal then m.original_text else m.translated_text

/-- The body text the current `MessageBubble` renders
(AddPatientContext.tsx line 1096:
`isTranslating ? message.original_text : displayText || message.original_text`). -/
def renderedBody (m : ChatMessage) (showOriginal : Bool) : String :=
  if isTranslating m then m.original_text
  else jsOr (displayText m showOriginal) m.original_text

/-- The body text the legacy `MessageBubble` renders
(AddPatientContext.tsx line 538: `displayText || message.original_text`). -/
def renderedBodyLegacy (m : ChatMessage) (showOriginal : Bool) : String :=
  jsOr (displayText m showOriginal) m.original_text

/-- The message list render: every message in the list is mapped to one
bubble body (AddPatientContext.tsx lines 1487-1494). -/
def renderMessages (msgs : List ChatMessage) : List String :=
  msgs.map (fun m => renderedBody m false)

/-- The guard of the TTS Listen control in the current `MessageBubble`
(AddPatientContext.tsx line 1106: `!isTranslating && message.tts_audio_url`). -/
def showsListenControl (m : ChatMessage) : Bool :=
  !isTranslating m && jsTruthyOptStr m.tts_audio_url

/-- A JavaScript value as it appears in an HTTP error response body, with
its template-literal stringification behaviour. -/
inductive JsValue where
  | vNull
  | vUndefined
  | vStr (s : String)
  | vNum (n : Int)
  | vBool (b : Bool)
  | vObj
deriving Repr, DecidableEq

/-- JavaScript template-literal stringification of a value, as in
the interceptor expression wrapping `error.response.data`. -/
def jsTemplate : JsValue → String
  | JsValue.vNull => "null"
  | JsValue.vUndefined => "undefined"
  | JsValue.vStr s => s
  | JsValue.vNum n => toString n
  | JsValue.vBool b => if b then "true" else "false"
  | JsValue.vObj => "[object Object]"

/-- The server response attached to a failed axios request. -/
structure AxiosResponseModel where
  status : Nat
  data : JsValue
deriving Repr, DecidableEq

/-- The `AxiosError` fields the response interceptor reads. -/
structure AxiosErrorModel where
  response : Option AxiosResponseModel
  request : Option Unit
  message : String
deriving Repr, DecidableEq

/-- The constructed `Error` the interceptor rejects with: a typed outcome
carrying only a message, never the raw `AxiosError`. -/
structure ConstructedError where
  message : String
deriving Repr, DecidableEq

/-- The response-error interceptor of `httpClient`
(src/unnamed/part_004 lines 33-49): server-responded errors become
`new Error(template(data) || unknown)`, request-without-response becomes a
fixed message, anything else carries the original message. -/
def responseErrorHandler (e : AxiosErrorModel) : ConstructedError :=
  match e.response with
  | some r => { message := jsOr (jsTemplate r.data) "Unknown error" }
  | none =>
    match e.request with
    | some _ => { message := "No response received from server." }
    | none => { message := e.message }

/-- The query payload `RAGService.queryCollection` posts: exactly the
query string and a `top_k` field. -/
structure QueryPayload where
  query : String
  top_k : Nat
deriving Repr, DecidableEq

/-- A POST request issued by the RAG service. -/
structure PostRequest where
  url : String
  payload : QueryPayload
deriving Repr, DecidableEq

/-- Method `RAGService.queryCollection` (src/unnamed/part_002 lines 186-199): posts
`\x7b query, top_k: topK \x7d` to the collection query endpoint; `base` stands
for `API_BASE_URL ++ routes.COLLECTIONS`. -/
def queryCollection (base : String) (collectionId : Nat) (query : String)
    (topK : Nat) : PostRequest :=
  { url := base ++ toString collectionId ++ "/query/",
    payload := { query := query, top_k := topK } }

/-- A `queryCollection` call with the `topK` argument omitted: the
TypeScript default parameter `topK: number = 5` applies. -/
def queryCollectionDefault (base : String) (collectionId : Nat)
    (query : String) : PostRequest :=
  queryCollection base collectionId query 5

/-- The legacy `RAGService.queryCollection` (src/unnamed/part_002 lines
77-87): same endpoint shape and same payload, with `base` standing for
`API_URL ++ "/collections/"`. -/
def queryCollectionLegacy (base : String) (collectionId : Nat)
    (query : String) (topK : Nat) : PostRequest :=
  { url := base ++ toString collectionId ++ "/query/",
    payload := { query := query, top_k := topK } }

/-- The message payload `handleSendMessage` builds for `ChatService.sendMessage`. -/
structure SendPayload where
  sender_type : String
  text : String
  audio : Option String
deriving Repr, DecidableEq

/-- Handler `handleSendMessage` of `TranslationChat` (AddPatientContext.tsx lines
1388-1414): returns the payload actually sent, or `none` for the early
return (`!newMessage.trim() && !recordedAudio`), in which case no state is
touched; the text field is `newMessage || the voice-message placeholder`,
and recorded audio (already base64) is attached when present; `jsTrim`
stands for `newMessage.trim()`. -/
def handleSendMessage (userType : String) (newMessage : String)
    (recordedAudio : Option String) : Option SendPayload :=
  if jsTrim newMessage = "" ∧ recordedAudio = none then none
  else some
    { sender_type := userType,
      text := jsOr newMessage "[Voice Message]",
      audio := recordedAudio }

/-- The AI configuration the client uses (useAIConfig.ts, `AIConfig`). -/
structure AIConfig where
  ai_provider : String
  translation_model : String
  completion_model : String
  embedding_model : String
  embedding_provider : String
  embedding_dimensions : Nat
  chunking_strategy : String
  chunk_length : Nat
  chunk_overlap : Nat
  ollama_base_url : Option String
deriving Repr, DecidableEq

/-- The payload `handleSubmit` posts to `RAGService.createCollection`
(AddPatientContext.tsx lines 110-123). -/
structure CreateCollectionPayload where
  name : String
  description : String
  embedding_provider : String
  embedding_model : String
  embedding_dimensions : Nat
  completion_model : String
  collection_type : String
  chat_room : Nat
  is_global : Bool
  chunking_strategy : String
  chunk_length : Nat
  chunk_overlap : Nat
deriving Repr, DecidableEq

/-- The collection-creation payload built by `handleSubmit` for a new
patient-context collection. -/
def collectionPayload (roomId : Nat) (roomName timestamp : String)
    (cfg : AIConfig) : CreateCollectionPayload :=
  { name := roomName ++ " - Patient Context - " ++ timestamp,
    description := "Medical and cultural context for " ++ roomName,
    embedding_provider := cfg.embedding_provider,
    embedding_model := cfg.embedding_model,
    embedding_dimensions := cfg.embedding_dimensions,
    completion_model := cfg.completion_model,
    collection_type := "patient_context",
    chat_room := roomId,
    is_global := false,
    chunking_strategy := "fixed-length",
    chunk_length := cfg.chunk_length,
    chunk_overlap := cfg.chunk_overlap }

/-- One external call `handleSubmit` makes, in order. -/
inductive SubmitAction where
  | createCollection (payload : CreateCollectionPayload)
  | addDocument (collectionId : Nat)
  | addPatientContext (roomId : Nat) (collectionId : Nat) (patientName : String)
deriving Repr, DecidableEq

/-- Whether a submit action is the patient-context link call. -/
def isContextLink : SubmitAction → Bool
  | SubmitAction.addPatientContext _ _ _ => true
  | _ => false

/-- Whether a submit action is the document upload call. -/
def isDocUpload : SubmitAction → Bool
  | SubmitAction.addDocument _ => true
  | _ => false

/-- The tail of `handleSubmit` after a collection id has been resolved
(AddPatientContext.tsx lines 135-161): abort when the id is falsy
(`!collectionId`), otherwise optionally upload the selected file and then
link the context to the room; `selectedFile` carries the file name. -/
def submitWithCollectionId (roomId : Nat) (collectionId : Option Nat)
    (selectedFile : Option String) (patientNameField : String) :
    List SubmitAction :=
  match collectionId with
  | none => []
  | some cid =>
    if cid = 0 then []
    else
      (match selectedFile with
        | some _ => [SubmitAction.addDocument cid]
        | none => []) ++
      [SubmitAction.addPatientContext roomId cid
        (jsOr patientNameField (jsOr (selectedFile.getD "") "Unknown Patient"))]

/-- Handler `handleSubmit` of `AddPatientContext` (AddPatientContext.tsx lines
96-175) as the ordered list of external calls it makes: when the user chose
to create a new collection the creation request is issued first and a failed
creation (`createResult = error`) returns before any further call. -/
def handleSubmit (roomId : Nat) (roomName timestamp : String) (cfg : AIConfig)
    (createNewCollection : Bool) (selectedCollection : Option Nat)
    (createResult : Except Unit Nat) (selectedFile : Option String)
    (patientNameField : String) : List SubmitAction :=
  if createNewCollection then
    match createResult with
    | Except.error _ =>
      [SubmitAction.createCollection (collectionPayload roomId roomName timestamp cfg)]
    | Except.ok newId =>
      SubmitAction.createCollection (collectionPayload roomId roomName timestamp cfg) ::
      submitWithCollectionId roomId (some newId) selectedFile patientNameField
  else
    submitWithCollectionId roomId selectedCollection selectedFile patientNameField

/-- A chat room row as listed by `ChatService.getChatRooms`
(the fields the list handling needs). -/
structure ChatRoomModel where
  id : Nat
  name : String
deriving Repr, DecidableEq

/-- The shapes a JSON list endpoint can come back as, seen through the
JavaScript checks the service performs: `null`/`undefined`, a non-array
object with or without a `results` key, or an array (possibly carrying a
`results` expando property, which `in` would still find). -/
inductive ApiListResponse (α : Type) where
  | jsNull
  | jsUndefined
  | objWithResults (results : List α)
  | objNoResults
  | arrPlain (elems : List α)
  | arrWithResults (elems : List α) (results : List α)
deriving Repr, DecidableEq

/-- Method `ChatService.getChatRooms` (src/unnamed/part_003 lines 25-36): a truthy
object with a `results` key yields that field, an array yields itself, and
anything else yields the empty array. -/
def getChatRooms (response : ApiListResponse ChatRoomModel) : List ChatRoomModel :=
  match response with
  | ApiListResponse.objWithResults rs => rs
  | ApiListResponse.arrWithResults _ rs => rs
  | ApiListResponse.arrPlain es => es
  | _ => []

/-- Method `ChatService.getMessages` (src/unnamed/part_003 lines 50-61): the same
normalization applied to the per-room message list. -/
def getMessages (roomId : Nat) (response : ApiListResponse ChatMessage) :
    List ChatMessage :=
  match response with
  | ApiListResponse.objWithResults rs => rs
  | ApiListResponse.arrWithResults _ rs => rs
  | ApiListResponse.arrPlain es => es
  | _ => []

/-- The `/api/config/ai/` response body: every field may be absent
(`undefined`) or carry a value, and numeric zero / empty string are falsy. -/
structure ServerAIConfigData where
  ai_provider : Option String
  translation_model : Option String
  completion_model : Option String
  embedding_model : Option String
  embedding_provider : Option String
  embedding_dimensions : Option Nat
  chunking_strategy : Option String
  chunk_length : Option Nat
  chunk_overlap : Option Nat
  ollama_base_url : Option String
deriving Repr, DecidableEq

/-- JavaScript `v || d` on an optional number: `undefined` and `0` are falsy. -/
def jsOrNat (v : Option Nat) (d : Nat) : Nat :=
  match v with
  | none => d
  | some n => if n = 0 then d else n

/-- JavaScript `v || d` on an optional string: `undefined` and `""` are falsy. -/
def jsOrStrOpt (v : Option String) (d : String) : String :=
  match v with
  | none => d
  | some s => jsOr s d

/-- Constant `DEFAULT_CONFIG` of `useAIConfig` (useAIConfig.ts lines 18-28). -/
def DEFAULT_CONFIG : AIConfig :=
  { ai_provider := "ollama",
    translation_model := "granite:latest",
    completion_model := "granite3.3:8b",
    embedding_model := "nomic-embed-text:v1.5",
    embedding_provider := "ollama",
    embedding_dimensions := 768,
    chunking_strategy := "fixed-length",
    chunk_length := 1000,
    chunk_overlap := 200,
    ollama_base_url := none }

/-- The `typedConfig` construction of `useAIConfig.fetchConfig`
(useAIConfig.ts lines 51-64): each field is `data.field || default`. -/
def parseAIConfig (data : ServerAIConfigData) : AIConfig :=
  { ai_provider := jsOrStrOpt data.ai_provider "ollama",
    translation_model :=
      jsOrStrOpt data.translation_model DEFAULT_CONFIG.translation_model,
    completion_model :=
      jsOrStrOpt data.completion_model DEFAULT_CONFIG.completion_model,
    embedding_model :=
      jsOrStrOpt data.embedding_model DEFAULT_CONFIG.embedding_model,
    embedding_provider :=
      jsOrStrOpt data.embedding_provider DEFAULT_CONFIG.embedding_provider,
    embedding_dimensions :=
      jsOrNat data.embedding_dimensions DEFAULT_CONFIG.embedding_dimensions,
    chunking_strategy :=
      jsOrStrOpt data.chunking_strategy DEFAULT_CONFIG.chunking_strategy,
    chunk_length := jsOrNat data.chunk_length DEFAULT_CONFIG.chunk_length,
    chunk_overlap := jsOrNat data.chunk_overlap DEFAULT_CONFIG.chunk_overlap,
    ollama_base_url := data.ollama_base_url }

/-- Function `fetchConfig` of `useAIConfig` (useAIConfig.ts lines 44-75): a
successful fetch is parsed field-by-field with defaults; a failed fetch
caches and reports the whole default configuration. -/
def fetchConfig (result : Except Unit ServerAIConfigData) : AIConfig :=
  match result with
  | Except.ok data => parseAIConfig data
  | Except.error _ => DEFAULT_CONFIG

/-- A content chunk of a collection, carrying its precomputed embedding
(spec section 3, Chunk). -/
structure ChunkModel where
  name : String
  content : String
  embedding : List Int
deriving Repr, DecidableEq

/-- A retrievable collection: name, chunks, embedding dimensionality
(spec section 3, Collection). -/
structure CollectionModel where
  name : String
  embedding_dimensions : Nat
  chunks : List ChunkModel
deriving Repr, DecidableEq

/-- Similarity of two embedding vectors; the cosine similarity of the spec is
modelled by the (rank-equivalent up to normalization) integer dot product,
since the numeric details are external to the reuse invariant. -/
def dotSimilarity (a b : List Int) : Int :=
  (List.zipWith (fun x y => x * y) a b).sum

/-- Per-collection scoring: every chunk of the collection scored against
the query embedding, sorted by similarity descending, cut to `topK`
(spec section 4.3 step 3). -/
def topKForCollection (qEmb : List Int) (c : CollectionModel) (topK : Nat) :
    List (String × ChunkModel × Int) :=
  ((c.chunks.map (fun ch => (c.name, ch, dotSimilarity qEmb ch.embedding))).insertionSort
    (fun a b => b.2.2 ≤ a.2.2)).take topK

/-- Global merge: all per-collection lists merged, ranked by similarity
descending, cut to `topK` overall, below-threshold results dropped
(spec section 4.3 step 4). -/
def mergeRanked (lists : List (List (String × ChunkModel × Int))) (topK : Nat)
    (minSim : Int) : List (String × ChunkModel × Int) :=
  ((lists.flatten.insertionSort (fun a b => b.2.2 ≤ a.2.2)).take topK).filter
    (fun r => minSim ≤ r.2.2)

/-- Modelled from the spec: the Retrieval Aggregator `retrieve` of section
4.3 (the backend implementation under services/api is not in the source
snapshot).  The embedding capability is passed as an effectful operation so
its invocations can be counted; the query embedding is computed exactly
once (step 2) and reused across every resolved collection; collections
whose configured dimensionality is incompatible with the query embedding
are skipped (step 2). -/
def retrieveM (embed : String → StateM Nat (List Int))
    (collections : List CollectionModel) (query : String) (topK : Nat)
    (minSim : Int) : StateM Nat (List (String × ChunkModel × Int)) := do
  let qEmb ← embed query
  let resolved := collections.filter
    (fun c => c.embedding_dimensions == qEmb.length)
  pure (mergeRanked (resolved.map (fun c => topKForCollection qEmb c topK))
    topK minSim)

/-- An embedding provider instrumented with a call counter. -/
def countingEmbed (provider : String → List Int) :
    String → StateM Nat (List Int) :=
  fun q => do
    modify (fun n => n + 1)
    pure (provider q)

/-- A `retrieve` call against the counting provider, started with a zero
counter: the ranked context together with the number of embedding calls. -/
def retrieveWithCallCount (provider : String → List Int)
    (collections : List CollectionModel) (query : String) (topK : Nat)
    (minSim : Int) : List (String × ChunkModel × Int) × Nat :=
  (retrieveM (countingEmbed provider) collections query topK minSim).run 0

/-- Modelled from the spec: the per-queue worker concurrency of the Work
Queue Layer (section 4.2); the Celery worker configuration itself is not in
the source snapshot, and the README worker commands (src/README.md lines
149-166) run the audio/TTS queue with concurrency 1 and the worker serving
every other queue with concurrency 4. -/
def queueConcurrency (q : String) : Nat :=
  if q = "audio" then 1 else 4

/-- One scheduling step of the Work Queue Layer over the multiset of
actively leased jobs (each entry is the queue name of a leased job): a
worker may lease a job only while its queue is below its concurrency cap,
and completing a job releases its lease (spec sections 4.2 and 5). -/
inductive QueueStep : List String → List String → Prop where
  | lease (q : String) (s : List String) (h : s.count q < queueConcurrency q) :
      QueueStep s (q :: s)
  | complete (q : String) (s : List String) (h : q ∈ s) :
      QueueStep s (s.erase q)

/-- The lease states reachable from the idle system. -/
def QueueReachable (s : List String) : Prop :=
  Relation.ReflTransGen QueueStep [] s

/-- C1: every rendered chat bubble shows the translated text exactly when it
is non-empty and the message is not in a translating placeholder state, and
the original text otherwise; a message with empty translated text is rendered
with its original text (also in the legacy bubble), and the message-list
render drops no message. -/
theorem messageBubble_body_never_drops_message (m : ChatMessage) :
    (renderedBody m false =
      if isTranslating m = false ∧ m.translated_text ≠ "" then m.translated_text
      else m.original_text)
    ∧ (m.translated_text = "" → renderedBody m false = m.original_text)
    ∧ renderedBodyLegacy m false = jsOr m.translated_text m.original_text
    ∧ ∀ msgs : List ChatMessage, (renderMessages msgs).length = msgs.length := by
  refine ⟨?_, ?_, ?_, ?_⟩
  · by_cases hT : isTranslating m
    · simp [renderedBody, hT]
    · by_cases hE : m.translated_text = ""
      · simp [renderedBody, displayText, jsOr, hT, hE]
      · simp [renderedBody, displayText, jsOr, hT, hE]
  · intro hE
    by_cases hT : isTranslating m
    · simp [renderedBody, hT]
    · simp [renderedBody, displayText, jsOr, hT, hE]
  · rfl
  · intro msgs
    simp [renderMessages]

/-- C1 witness: a message whose translation failed (empty translated text)
is rendered with its original text. -/
theorem messageBubble_body_never_drops_message_witness :
    renderedBody
      { original_text := "chest pain", original_language := "en",
        translated_text := "", translated_language := "zu",
        tts_audio_url := none } false = "chest pain" :=
  (messageBubble_body_never_drops_message _).2.1 rfl

/-- C8: the rendered body text of a bubble does not depend on the presence of
synthesized audio, and the TTS Listen control is rendered exactly when the
message is not translating and `tts_audio_url` is set (truthy). -/
theorem listen_control_independent_of_body (m : ChatMessage) :
    (∀ url showOriginal,
      renderedBody { m with tts_audio_url := url } showOriginal =
        renderedBody m showOriginal)
    ∧ (showsListenControl m = true ↔
        (isTranslating m = false ∧ jsTruthyOptStr m.tts_audio_url = true)) := by
  constructor
  · intro url showOriginal
    rfl
  · simp [showsListenControl]

/-- C4: every failed request is rejected with a constructed error value:
stringified response data (falling back to a fixed unknown-error message)
when the server responded, a fixed no-response message when the request got
no response, and the original message otherwise. -/
theorem httpClient_rejects_with_typed_error (e : AxiosErrorModel) :
    (∀ r, e.response = some r →
      responseErrorHandler e =
        { message := jsOr (jsTemplate r.data) "Unknown error" })
    ∧ (e.response = none → e.request.isSome = true →
      responseErrorHandler e = { message := "No response received from server." })
    ∧ (e.response = none → e.request = none →
      responseErrorHandler e = { message := e.message }) := by
  refine ⟨?_, ?_, ?_⟩
  · intro r hr
    simp [responseErrorHandler, hr]
  · intro hr hq
    rcases hq' : e.request with _ | u
    · rw [hq'] at hq; simp at hq
    · simp [responseErrorHandler, hr, hq']
  · intro hr hq
    simp [responseErrorHandler, hr, hq]

/-- C4 witness: the three interceptor branches at concrete failed requests. -/
theorem httpClient_rejects_with_typed_error_witness :
    responseErrorHandler
        { response := some { status := 500, data := JsValue.vStr "boom" },
          request := none, message := "Request failed" } =
      { message := "boom" }
    ∧ responseErrorHandler
        { response := none, request := some (), message := "Network Error" } =
      { message := "No response received from server." }
    ∧ responseErrorHandler
        { response := none, request := none, message := "setup blew up" } =
      { message := "setup blew up" } :=
  ⟨((httpClient_rejects_with_typed_error _).1 _ rfl).trans (by decide),
   (httpClient_rejects_with_typed_error _).2.1 rfl rfl,
   (httpClient_rejects_with_typed_error _).2.2 rfl rfl⟩

/-- C5: `queryCollection` posts exactly the payload of the query string and
`top_k` equal to the given `topK` to the collection query endpoint, the
omitted-argument call posts `top_k = 5`, and the legacy version agrees. -/
theorem queryCollection_posts_topK (base : String) (collectionId : Nat)
    (query : String) (topK : Nat) :
    (queryCollection base collectionId query topK).payload =
      { query := query, top_k := topK }
    ∧ (queryCollection base collectionId query topK).url =
      base ++ toString collectionId ++ "/query/"
    ∧ (queryCollectionDefault base collectionId query).payload.top_k = 5
    ∧ queryCollectionLegacy base collectionId query topK =
      queryCollection base collectionId query topK := by
  exact ⟨rfl, rfl, rfl, rfl⟩

/-- C6: with empty trimmed text and no recorded audio nothing is sent; with
audio and an empty text field the placeholder text is sent; every payload
that is sent has non-empty text. -/
theorem handleSendMessage_never_sends_empty_text (userType newMessage : String)
    (recordedAudio : Option String) :
    (jsTrim newMessage = "" → recordedAudio = none →
      handleSendMessage userType newMessage recordedAudio = none)
    ∧ (newMessage = "" → recordedAudio ≠ none →
      handleSendMessage userType newMessage recordedAudio =
        some { sender_type := userType, text := "[Voice Message]",
               audio := recordedAudio })
    ∧ (∀ p, handleSendMessage userType newMessage recordedAudio = some p →
        p.text ≠ "") := by
  refine ⟨?_, ?_, ?_⟩
  · intro h1 h2
    simp [handleSendMessage, h1, h2]
  · intro h1 h2
    simp only [handleSendMessage, h1, jsOr]
    simp [h2]
  · intro p hp
    by_cases hc : jsTrim newMessage = "" ∧ recordedAudio = none
    · simp [handleSendMessage, hc] at hp
    · simp only [handleSendMessage, if_neg hc, Option.some.injEq] at hp
      subst hp
      by_cases hm : newMessage = ""
      · simp [jsOr, hm]
      · simp [jsOr, hm]

/-- C6 witness: whitespace-only text with no audio sends nothing; empty text
with recorded audio sends the voice-message placeholder. -/
theorem handleSendMessage_never_sends_empty_text_witness :
    handleSendMessage "doctor" "   " none = none
    ∧ handleSendMessage "patient" "" (some "QUJD") =
      some { sender_type := "patient", text := "[Voice Message]",
             audio := some "QUJD" } :=
  ⟨(handleSendMessage_never_sends_empty_text "doctor" "   " none).1 (by decide) rfl,
   (handleSendMessage_never_sends_empty_text "patient" "" (some "QUJD")).2.1 rfl
     (by simp)⟩

/-- C7: a submit that creates a new collection issues the creation request
first with collection type patient context, the room as chat room, and
is_global false; a failed creation makes no further call (in particular no
context link); a falsy collection id aborts before any document upload or
context link. -/
theorem handleSubmit_creates_collection_before_link (roomId : Nat)
    (roomName ts : String) (cfg : AIConfig) (sel : Option Nat)
    (res : Except Unit Nat) (file : Option String) (pname : String) :
    ((collectionPayload roomId roomName ts cfg).collection_type = "patient_context"
      ∧ (collectionPayload roomId roomName ts cfg).chat_room = roomId
      ∧ (collectionPayload roomId roomName ts cfg).is_global = false)
    ∧ (∃ rest, handleSubmit roomId roomName ts cfg true sel res file pname =
        SubmitAction.createCollection (collectionPayload roomId roomName ts cfg)
          :: rest)
    ∧ (res = Except.error () →
        handleSubmit roomId roomName ts cfg true sel res file pname =
          [SubmitAction.createCollection (collectionPayload roomId roomName ts cfg)])
    ∧ (sel = none ∨ sel = some 0 →
        handleSubmit roomId roomName ts cfg false sel res file pname = [])
    ∧ (res = Except.ok 0 →
        handleSubmit roomId roomName ts cfg true sel res file pname =
          [SubmitAction.createCollection (collectionPayload roomId roomName ts cfg)]) := by
  refine ⟨⟨rfl, rfl, rfl⟩, ?_, ?_, ?_, ?_⟩
  · cases res with
    | error e => exact ⟨[], rfl⟩
    | ok newId =>
      exact ⟨submitWithCollectionId roomId (some newId) file pname, rfl⟩
  · intro h
    subst h
    rfl
  · intro h
    rcases h with h | h <;> subst h <;>
      simp [handleSubmit, submitWithCollectionId]
  · intro h
    subst h
    simp [handleSubmit, submitWithCollectionId]

/-- C7 witness: with creation chosen and failing, only the creation request
(typed patient_context, room 7, not global) is issued; without creation and
with no selected collection nothing is called. -/
theorem handleSubmit_creates_collection_before_link_witness :
    handleSubmit 7 "Room A" "2026-10-12 00:00:00" DEFAULT_CONFIG true none
        (Except.error ()) none "" =
      [SubmitAction.createCollection
        (collectionPayload 7 "Room A" "2026-10-12 00:00:00" DEFAULT_CONFIG)]
    ∧ handleSubmit 7 "Room A" "2026-10-12 00:00:00" DEFAULT_CONFIG false none
        (Except.ok 3) none "" = [] :=
  ⟨(handleSubmit_creates_collection_before_link 7 "Room A" "2026-10-12 00:00:00"
      DEFAULT_CONFIG none (Except.error ()) none "").2.2.1 rfl,
   (handleSubmit_creates_collection_before_link 7 "Room A" "2026-10-12 00:00:00"
      DEFAULT_CONFIG none (Except.ok 3) none "").2.2.2.1 (Or.inl rfl)⟩

/-- C9: both list endpoints always produce an array: the `results` field for
an object carrying one, the response itself for a plain array, and the empty
array for null, undefined, or a result-less object. -/
theorem chatService_lists_always_arrays (roomId : Nat)
    (rResp : ApiListResponse ChatRoomModel) (mResp : ApiListResponse ChatMessage) :
    (∀ rs, rResp = ApiListResponse.objWithResults rs → getChatRooms rResp = rs)
    ∧ (∀ es rs, rResp = ApiListResponse.arrWithResults es rs →
        getChatRooms rResp = rs)
    ∧ (∀ es, rResp = ApiListResponse.arrPlain es → getChatRooms rResp = es)
    ∧ (rResp = ApiListResponse.jsNull ∨ rResp = ApiListResponse.jsUndefined ∨
        rResp = ApiListResponse.objNoResults → getChatRooms rResp = [])
    ∧ (∀ rs, mResp = ApiListResponse.objWithResults rs →
        getMessages roomId mResp = rs)
    ∧ (∀ es rs, mResp = ApiListResponse.arrWithResults es rs →
        getMessages roomId mResp = rs)
    ∧ (∀ es, mResp = ApiListResponse.arrPlain es → getMessages roomId mResp = es)
    ∧ (mResp = ApiListResponse.jsNull ∨ mResp = ApiListResponse.jsUndefined ∨
        mResp = ApiListResponse.objNoResults → getMessages roomId mResp = []) := by
  refine ⟨?_, ?_, ?_, ?_, ?_, ?_, ?_, ?_⟩
  · intro rs h; subst h; rfl
  · intro es rs h; subst h; rfl
  · intro es h; subst h; rfl
  · intro h; rcases h with h | h | h <;> subst h <;> rfl
  · intro rs h; subst h; rfl
  · intro es rs h; subst h; rfl
  · intro es h; subst h; rfl
  · intro h; rcases h with h | h | h <;> subst h <;> rfl

/-- C9 witness: a paginated room response yields its results, and a null
message response yields the empty array. -/
theorem chatService_lists_always_arrays_witness :
    getChatRooms (ApiListResponse.objWithResults [{ id := 1, name := "Ward" }]) =
      [{ id := 1, name := "Ward" }]
    ∧ getMessages 1 ApiListResponse.jsNull = [] :=
  ⟨(chatService_lists_always_arrays 1
      (ApiListResponse.objWithResults [{ id := 1, name := "Ward" }])
      ApiListResponse.jsNull).1 _ rfl,
   (chatService_lists_always_arrays 1
      (ApiListResponse.objWithResults [{ id := 1, name := "Ward" }])
      ApiListResponse.jsNull).2.2.2.2.2.2.2 (Or.inl rfl)⟩

/-- C10: a server-configured zero chunk overlap (or zero chunk length, or an
empty embedding model string) is reported as the hard-coded default, and a
failed fetch yields the whole default configuration. -/
theorem useAIConfig_replaces_falsy_fields (data : ServerAIConfigData) :
    (data.chunk_overlap = some 0 →
      (fetchConfig (Except.ok data)).chunk_overlap = 200)
    ∧ (data.chunk_length = some 0 →
      (fetchConfig (Except.ok data)).chunk_length = 1000)
    ∧ (data.embedding_model = some "" →
      (fetchConfig (Except.ok data)).embedding_model = "nomic-embed-text:v1.5")
    ∧ (∀ e, fetchConfig (Except.error e) = DEFAULT_CONFIG) := by
  refine ⟨?_, ?_, ?_, ?_⟩
  · intro h
    simp [fetchConfig, parseAIConfig, jsOrNat, h, DEFAULT_CONFIG]
  · intro h
    simp [fetchConfig, parseAIConfig, jsOrNat, h, DEFAULT_CONFIG]
  · intro h
    simp [fetchConfig, parseAIConfig, jsOrStrOpt, jsOr, h, DEFAULT_CONFIG]
  · intro e
    rfl

/-- C10 witness: a response with zero chunk overlap and zero chunk length is
reported with the defaults 200 and 1000. -/
theorem useAIConfig_replaces_falsy_fields_witness :
    (fetchConfig (Except.ok
      { ai_provider := some "ollama", translation_model := none,
        completion_model := none, embedding_model := none,
        embedding_provider := none, embedding_dimensions := some 768,
        chunking_strategy := none, chunk_length := some 0,
        chunk_overlap := some 0, ollama_base_url := none })).chunk_overlap = 200
    ∧ (fetchConfig (Except.ok
      { ai_provider := some "ollama", translation_model := none,
        completion_model := none, embedding_model := none,
        embedding_provider := none, embedding_dimensions := some 768,
        chunking_strategy := none, chunk_length := some 0,
        chunk_overlap := some 0, ollama_base_url := none })).chunk_length = 1000 :=
  ⟨(useAIConfig_replaces_falsy_fields _).1 rfl,
   (useAIConfig_replaces_falsy_fields _).2.1 rfl⟩

/-- C2: one `retrieve` call invokes the embedding provider exactly once, for
every number of linked collections (in particular 0, 1 and 5): the query
embedding is computed up front and reused across all resolved collections. -/
theorem retrieve_embeds_exactly_once (provider : String → List Int)
    (collections : List CollectionModel) (query : String) (topK : Nat)
    (minSim : Int) :
    (retrieveWithCallCount provider collections query topK minSim).2 = 1 := by
  rfl

/-- Helper: one scheduling step preserves the per-queue concurrency bound. -/
theorem queueStep_count_le (a b : List String) (st : QueueStep a b)
    (ha : ∀ q, a.count q ≤ queueConcurrency q) :
    ∀ q, b.count q ≤ queueConcurrency q := by
  cases st with
  | lease q' s' hlt =>
    intro q
    by_cases hq : q' = q
    · subst hq
      simpa [List.count_cons] using hlt
    · simpa [List.count_cons, hq] using ha q
  | complete q' s' hmem =>
    intro q
    exact le_trans ((List.erase_sublist q' a).count_le q) (ha q)

/-- Helper invariant for the Work Queue Layer: in every reachable lease
state no queue exceeds its configured concurrency. -/
theorem queueReachable_count_le (s : List String) (h : QueueReachable s) :
    ∀ q, s.count q ≤ queueConcurrency q := by
  induction h with
  | refl => intro q; simp
  | tail _ step ih => exact queueStep_count_le _ _ step ih

/-- C3: in every reachable state of the work-queue layer at most one job of
the audio (speech-synthesis) queue is actively leased, while every other
queue is configured with concurrency greater than 1. -/
theorem synthesisQueue_at_most_one_lease (s : List String)
    (h : QueueReachable s) :
    s.count "audio" ≤ 1 ∧ ∀ q, q ≠ "audio" → 1 < queueConcurrency q := by
  constructor
  · have := queueReachable_count_le s h "audio"
    simpa [queueConcurrency] using this
  · intro q hq
    simp [queueConcurrency, hq]

/-- C3 witness: the state with one leased audio job is reachable and within
the cap, and the translation queue is configured above 1. -/
theorem synthesisQueue_at_most_one_lease_witness :
    (["audio"] : List String).count "audio" ≤ 1
    ∧ ∀ q, q ≠ "audio" → 1 < queueConcurrency q :=
  synthesisQueue_at_most_one_lease ["audio"]
    (Relation.ReflTransGen.single (QueueStep.lease "audio" [] (by decide)))
